import Mathlib

/-!
Shallow embedding of `src/bottggame.py` (a Telegram website-checker bot).

Each handler is modelled as a pure function from an environment `Env`
(describing the outcomes of every external call: HTTP probe, DNS, WHOIS,
browser automation, image I/O, transport operations) to an `Except`-style
result together with a trace of emitted effects.  An `.error e` result models
a Python exception with message `e` propagating out of the function; a
Python `try/except` block is a `match` on the result of the embedded body.

Python strings are modelled as Lean `String`s; the slicing and
`str.startswith` operations used by the source are embedded over the
underlying character list (`String.data`), matching Python's
character-sequence semantics.
-/

namespace Bot

/-- Python values stored in the info dict returned by `get_website_info`:
integers (status code, response time), strings (ip, domain, the "N/A"
placeholders), datetimes (abstracted to a `Nat` tag; their exact textual
rendering is irrelevant to the claims) and `None`. -/
inductive Value : Type
  | int (n : Int)
  | str (s : String)
  | dateV (d : Nat)
  | noneV
deriving DecidableEq

/-- How Python renders a value inside an f-string (`str(v)`).  Datetime
rendering is abstracted as the decimal rendering of the tag. -/
def pyStr : Value → String
  | .int n => toString n
  | .str s => s
  | .dateV d => toString d
  | .noneV => "None"

/-- A field of a python-whois record: the library returns either a scalar
(datetime / string / None) or a list of scalars (the source tests with
`isinstance(..., list)`). -/
inductive WField : Type
  | scalar (v : Value)
  | listF (vs : List Value)
deriving DecidableEq

/-- The parts of a `whois.whois(domain)` result the source reads. -/
structure WhoisInfo : Type where
  registrar : Value
  creation_date : WField
  expiration_date : WField
deriving DecidableEq

/-- The resampling filter passed to `PIL.Image.resize`. -/
inductive Filter : Type
  | lanczos
deriving DecidableEq

/-- An inline keyboard: rows of buttons, each button a (label, callback_data)
pair, mirroring `InlineKeyboardMarkup([[InlineKeyboardButton(..)]])`. -/
abbrev Markup := List (List (String × String))

/-- Observable effects of one handler run, in order.  `infoCall` / `captureCall`
mark the invocation of `get_website_info` / `take_screenshot` with their URL
argument; the remaining constructors are the individual external calls the
source makes. -/
inductive Eff : Type
  | replyText (text : String)
  | replyTextMarkup (text : String) (markup : Markup)
  | replyPhoto (path : String) (caption : String) (markup : Markup)
  | editText (text : String)
  | editCaption (caption : String) (markup : Markup)
  | deleteMessage
  | answerCallback
  | removeFile (path : String)
  | infoCall (url : String)
  | probeGet (url : String)
  | dnsResolve (domain : String)
  | whoisQuery (domain : String)
  | captureCall (url : String)
  | driverLaunch
  | navigate (url : String)
  | sleepSec (n : Nat)
  | saveScreenshot (path : String)
  | driverQuit
  | imageOpen (path : String)
  | imageResizeSave (path : String) (w h : Nat) (f : Filter)
deriving DecidableEq

/-- Result of running an embedded piece of code: the Python return value (or
a propagating exception message) plus the effect trace it emitted. -/
structure Res (α : Type) : Type where
  result : Except String α
  trace : List Eff

/-- Outcomes of every external call a handler run can make.  Functions of the
argument where the source passes one.  `.error e` means the call raises an
exception rendered as `e`; `.ok` carries the returned data. -/
structure Env : Type where
  /-- Outcome of `requests.get(url, timeout=10)` together with the elapsed-time
  measurement: on success, the status code and the rounded elapsed
  milliseconds. -/
  probe : String → Except String (Int × Int)
  /-- Outcome of `socket.gethostbyname(domain)`: the IP address on success. -/
  dns : String → Except String String
  /-- Outcome of `whois.whois(domain)`: may raise, or return a record (`some`) or a
  falsy/None result (`none`). -/
  whoisQ : String → Except String (Option WhoisInfo)
  /-- Outcome of `webdriver.Chrome(options=chrome_options)`. -/
  launch : Except String Unit
  /-- Outcome of `driver.get(url)`. -/
  navigate : String → Except String Unit
  /-- Outcome of `driver.save_screenshot(path)`. -/
  saveShot : Except String Unit
  /-- Outcome of `Image.open(path)`: the image's (width, height) on success. -/
  imgOpen : Except String (Nat × Nat)
  /-- Outcome of `img.resize(..)` followed by `img.save(path)`. -/
  resizeSave : Except String Unit
  /-- Outcome of `processing_msg.delete()`. -/
  deleteMsg : Except String Unit
  /-- Outcome of `update.message.reply_photo(..)`. -/
  sendPhoto : Except String Unit

/-- An inbound Telegram message (`update.message`): the source only reads
its `.text`. -/
structure Message : Type where
  text : String
deriving DecidableEq

/-- An inbound callback query (`update.callback_query`): the source only
reads its `.data`. -/
structure CallbackQuery : Type where
  data : String
deriving DecidableEq

/-- An inbound `Update`.  Per the transport's contract, `message` is set only
for message updates (it is `none` for a callback-button press, whose payload
arrives in `callback_query`), matching the spec's inbound event surface
`TextMessage{sender_id, text}` vs `CallbackPress{sender_id, payload}`. -/
structure Update : Type where
  userId : Nat
  message : Option Message
  callback_query : Option CallbackQuery
deriving DecidableEq

/-- The allow-list `ALLOWED_USERS` (line 14). -/
def ALLOWED_USERS : List Nat := [123456789, 987654321]

/-- The fixed rejection message (line 31). -/
def rejection_text : String := "Sorry, you are not authorized to use this bot."

/-- The welcome text sent by `start` (lines 40-43). -/
def welcome_text : String :=
  "Welcome to the Website Checker Bot!\nSend me a website URL to check its availability and get detailed information."

/-- The transient placeholder text (line 106). -/
def processing_text : String := "Processing your request..."

/-- Python `s.startswith(p)`, over the character sequence. -/
def pyStartsWith (s p : String) : Bool :=
  p.data.isPrefixOf s.data

/-- Python `s[n:]`, over the character sequence. -/
def pyDrop (s : String) (n : Nat) : String :=
  String.mk (s.data.drop n)

/-- Embeds `check_auth` (lines 27-33): reads `update.effective_user.id`; if it is not
in the allow-list it calls `update.message.reply_text(..)` — which raises
`AttributeError` when `update.message` is `None` (as it is for callback-query
updates) — and returns `False`; otherwise returns `True`. -/
def check_auth (u : Update) : Res Bool :=
  if u.userId ∈ ALLOWED_USERS then ⟨.ok true, []⟩
  else
    match u.message with
    | some _ => ⟨.ok false, [.replyText rejection_text]⟩
    | none => ⟨.error "AttributeError: NoneType object has no attribute reply_text", []⟩

/-- Embeds `start` (lines 35-43). -/
def start (u : Update) : Res Unit :=
  let a := check_auth u
  match a.result with
  | .error e => ⟨.error e, a.trace⟩
  | .ok false => ⟨.ok (), a.trace⟩
  | .ok true => ⟨.ok (), a.trace ++ [.replyText welcome_text]⟩

/-- Embeds `url.split("//")[-1].split("/")[0]` (line 54).  Python `str.split` always
returns a nonempty list, so the `[-1]`/`[0]` indexings are total; `getLastD`
/ `headD` mirror them (`String.splitOn` also never returns `[]`). -/
def extract_domain (url : String) : String :=
  (((url.splitOn "//").getLastD "").splitOn "/").headD ""

/-- The info dict returned by `get_website_info`: an association list of
string keys to values, mirroring the Python dict literal (lines 62-70). -/
abbrev InfoDict := List (String × Value)

/-- Python `d.get(k, default)`. -/
def dictGet (d : InfoDict) (k : String) (dflt : Value) : Value :=
  match d.find? (fun p => p.1 == k) with
  | some p => p.2
  | none => dflt

/-- The `registrar` field expression (line 67):
`domain_info.registrar if domain_info else "N/A"`. -/
def registrar_field (di : Option WhoisInfo) : Value :=
  match di with
  | some w => w.registrar
  | none => .str "N/A"

/-- The date-field expression (lines 68-69):
`x[0] if domain_info and isinstance(x, list) else x if domain_info else "N/A"`.
Indexing `[0]` into an empty list raises `IndexError` (which the outer
`except` of `get_website_info` then catches). -/
def date_field (di : Option WhoisInfo) (f : WhoisInfo → WField) : Except String Value :=
  match di with
  | none => .ok (.str "N/A")
  | some w =>
    match f w with
    | .listF [] => .error "IndexError: list index out of range"
    | .listF (v :: _) => .ok v
    | .scalar v => .ok v

/-- The body of the outer `try` of `get_website_info` (lines 48-70): timed
GET, domain extraction, DNS resolution, the inner `try/except` around the
WHOIS query, and the dict construction. -/
def get_website_info_body (env : Env) (url : String) : Res InfoDict :=
  match env.probe url with
  | .error e => ⟨.error e, [.probeGet url]⟩
  | .ok (status, rtime) =>
    let domain := extract_domain url
    match env.dns domain with
    | .error e => ⟨.error e, [.probeGet url, .dnsResolve domain]⟩
    | .ok ip =>
      let domain_info : Option WhoisInfo :=
        match env.whoisQ domain with
        | .error _ => none
        | .ok di => di
      let tr : List Eff := [.probeGet url, .dnsResolve domain, .whoisQuery domain]
      match date_field domain_info (fun w => w.creation_date) with
      | .error e => ⟨.error e, tr⟩
      | .ok cre =>
        match date_field domain_info (fun w => w.expiration_date) with
        | .error e => ⟨.error e, tr⟩
        | .ok exp =>
          ⟨.ok [("status", .int status), ("response_time", .int rtime),
                ("ip", .str ip), ("domain", .str domain),
                ("registrar", registrar_field domain_info),
                ("creation_date", cre), ("expiration_date", exp)], tr⟩

/-- Embeds `get_website_info` (lines 45-72): the whole body is wrapped in
`try .. except Exception as e: return {"error": str(e)}`, so the function
itself never raises. -/
def get_website_info (env : Env) (url : String) : Res InfoDict :=
  match get_website_info_body env url with
  | ⟨.error e, tr⟩ => ⟨.ok [("error", .str e)], .infoCall url :: tr⟩
  | ⟨.ok d, tr⟩ => ⟨.ok d, .infoCall url :: tr⟩

/-- The fixed screenshot path (line 80). -/
def screenshot_path : String := "screenshot.png"

/-- The height Python computes for the resized image (line 88):
`int(img.size[1] * ratio)` with `ratio = 1280 / img.size[0]`.  Python's
IEEE-double arithmetic is modelled as exact rational arithmetic truncated
toward zero, i.e. `(h * 1280) / w` in natural division. -/
def resize_height (w h : Nat) : Nat :=
  h * 1280 / w

/-- The body of the `try` of `take_screenshot` (lines 77-92): launch the
browser, navigate, sleep 2s, capture to `screenshot.png`, quit the driver,
then open the image and, if wider than 1280px, resize to width 1280 with
the LANCZOS filter and overwrite the file.  `driver.quit()` is executed
only after a successful capture; an exception at launch/navigate/capture
jumps to `except` without quitting. -/
def take_screenshot_body (env : Env) (url : String) : Res String :=
  match env.launch with
  | .error e => ⟨.error e, [.driverLaunch]⟩
  | .ok () =>
    match env.navigate url with
    | .error e => ⟨.error e, [.driverLaunch, .navigate url]⟩
    | .ok () =>
      match env.saveShot with
      | .error e =>
        ⟨.error e, [.driverLaunch, .navigate url, .sleepSec 2, .saveScreenshot screenshot_path]⟩
      | .ok () =>
        let tr0 : List Eff :=
          [.driverLaunch, .navigate url, .sleepSec 2, .saveScreenshot screenshot_path, .driverQuit]
        match env.imgOpen with
        | .error e => ⟨.error e, tr0 ++ [.imageOpen screenshot_path]⟩
        | .ok (w, h) =>
          if w > 1280 then
            let eff := Eff.imageResizeSave screenshot_path 1280 (resize_height w h) .lanczos
            match env.resizeSave with
            | .error e => ⟨.error e, tr0 ++ [.imageOpen screenshot_path, eff]⟩
            | .ok () => ⟨.ok screenshot_path, tr0 ++ [.imageOpen screenshot_path, eff]⟩
          else
            ⟨.ok screenshot_path, tr0 ++ [.imageOpen screenshot_path]⟩

/-- Embeds `take_screenshot` (lines 74-94): the body is wrapped in
`try .. except: return None`, so the caller sees `none` on any failure and
never an exception. -/
def take_screenshot (env : Env) (url : String) : Res (Option String) :=
  match take_screenshot_body env url with
  | ⟨.error _, tr⟩ => ⟨.ok none, .captureCall url :: tr⟩
  | ⟨.ok p, tr⟩ => ⟨.ok (some p), .captureCall url :: tr⟩

/-- URL normalization (lines 102-103):
`if not url.startswith(('http://', 'https://')): url = 'https://' + url`. -/
def normalize_url (t : String) : String :=
  if pyStartsWith t "http://" || pyStartsWith t "https://" then t
  else "https://" ++ t

/-- The summary caption (lines 116-118 and 174-176). -/
def summary_text (url : String) (info : InfoDict) : String :=
  "🌐 Website: " ++ url ++ "\n" ++
  "⏱ Response Time: " ++ pyStr (dictGet info "response_time" (.str "N/A")) ++ "ms\n" ++
  "📊 Status: " ++ pyStr (dictGet info "status" (.str "N/A")) ++ "\n"

/-- The detail caption (lines 157-161). -/
def detail_text (url : String) (info : InfoDict) : String :=
  "🌐 Detailed Information for " ++ url ++ "\n\n" ++
  "🔍 IP Address: " ++ pyStr (dictGet info "ip" (.str "N/A")) ++ "\n" ++
  "🏢 Registrar: " ++ pyStr (dictGet info "registrar" (.str "N/A")) ++ "\n" ++
  "📅 Created: " ++ pyStr (dictGet info "creation_date" (.str "N/A")) ++ "\n" ++
  "⌛ Expires: " ++ pyStr (dictGet info "expiration_date" (.str "N/A")) ++ "\n"

/-- The Summary view's button row (lines 121 and 181):
`[[InlineKeyboardButton("More Info ℹ️", callback_data=f"more_{url}")]]`. -/
def more_button (url : String) : Markup :=
  [[("More Info ℹ️", "more_" ++ url)]]

/-- The Detail view's button row (line 166):
`[[InlineKeyboardButton("Back 🔙", callback_data=f"back_{url}")]]`. -/
def back_button (url : String) : Markup :=
  [[("Back 🔙", "back_" ++ url)]]

/-- The callback payload carried by a one-button markup. -/
def button_payload (m : Markup) : String :=
  ((m.headD []).headD ("", "")).2

/-- The view tag recovered from a callback payload. -/
inductive Tag : Type
  | more
  | back
deriving DecidableEq

/-- Payload decoding as performed by `button_callback` (lines 153-154 and
170-171): test `startswith("more_")` then `startswith("back_")`, and recover
the URL as `data[5:]`. -/
def decode_payload (data : String) : Option (Tag × String) :=
  if pyStartsWith data "more_" then some (.more, pyDrop data 5)
  else if pyStartsWith data "back_" then some (.back, pyDrop data 5)
  else none

/-- The body of the `try` of `handle_url` (lines 108-141): fetch info, take
the screenshot, build the summary caption and More-Info button, delete the
processing placeholder, then either send the photo and remove the file, or
send a text-only reply noting the screenshot failure. -/
def handle_url_try (env : Env) (url : String) : Res Unit :=
  let i := get_website_info env url
  match i.result with
  | .error e => ⟨.error e, i.trace⟩
  | .ok info =>
    let s := take_screenshot env url
    match s.result with
    | .error e => ⟨.error e, i.trace ++ s.trace⟩
    | .ok shot =>
      let text := summary_text url info
      let markup := more_button url
      match env.deleteMsg with
      | .error e => ⟨.error e, i.trace ++ s.trace ++ [.deleteMessage]⟩
      | .ok () =>
        match shot with
        | some path =>
          match env.sendPhoto with
          | .error e =>
            ⟨.error e, i.trace ++ s.trace ++ [.deleteMessage, .replyPhoto path text markup]⟩
          | .ok () =>
            ⟨.ok (), i.trace ++ s.trace ++
              [.deleteMessage, .replyPhoto path text markup, .removeFile path]⟩
        | none =>
          ⟨.ok (), i.trace ++ s.trace ++
            [.deleteMessage,
             .replyTextMarkup (text ++ "\n❌ Could not generate screenshot") markup]⟩

/-- Embeds `handle_url` (lines 96-143): auth check, URL normalization, "processing"
placeholder, then the `try` body; any exception in the body is caught and
the placeholder is edited to an error message. -/
def handle_url (env : Env) (u : Update) : Res Unit :=
  let a := check_auth u
  match a.result with
  | .error e => ⟨.error e, a.trace⟩
  | .ok false => ⟨.ok (), a.trace⟩
  | .ok true =>
    match u.message with
    | none => ⟨.error "AttributeError: NoneType object has no attribute text", a.trace⟩
    | some m =>
      let url := normalize_url m.text
      let tr0 := a.trace ++ [.replyText processing_text]
      match handle_url_try env url with
      | ⟨.error e, tr⟩ =>
        ⟨.ok (), tr0 ++ tr ++ [.editText ("Error checking website: " ++ e)]⟩
      | ⟨.ok (), tr⟩ => ⟨.ok (), tr0 ++ tr⟩

/-- Embeds `button_callback` (lines 145-183): auth check, answer the callback, then
decode the payload; on `more_` re-run the lookup and edit the caption to the
detail view with a Back button; on `back_` re-run it and edit to the summary
view with a More-Info button; other payloads do nothing. -/
def button_callback (env : Env) (u : Update) : Res Unit :=
  let a := check_auth u
  match a.result with
  | .error e => ⟨.error e, a.trace⟩
  | .ok false => ⟨.ok (), a.trace⟩
  | .ok true =>
    match u.callback_query with
    | none => ⟨.error "AttributeError: NoneType object has no attribute answer", a.trace⟩
    | some q =>
      let tr0 := a.trace ++ [.answerCallback]
      match decode_payload q.data with
      | some (.more, url) =>
        let i := get_website_info env url
        match i.result with
        | .error e => ⟨.error e, tr0 ++ i.trace⟩
        | .ok info =>
          ⟨.ok (), tr0 ++ i.trace ++ [.editCaption (detail_text url info) (back_button url)]⟩
      | some (.back, url) =>
        let i := get_website_info env url
        match i.result with
        | .error e => ⟨.error e, tr0 ++ i.trace⟩
        | .ok info =>
          ⟨.ok (), tr0 ++ i.trace ++ [.editCaption (summary_text url info) (more_button url)]⟩
      | none => ⟨.ok (), tr0⟩

/-- One step of the file-existence abstraction: `saveScreenshot` creates the
file, `removeFile` deletes it, every other effect (including the resize
overwrite) leaves its existence unchanged. -/
def fileStep (path : String) (b : Bool) (e : Eff) : Bool :=
  match e with
  | .saveScreenshot p => if p == path then true else b
  | .removeFile p => if p == path then false else b
  | _ => b

/-- Whether the screenshot file exists after the effects `tr` have run,
starting from a state where it does not exist. -/
def fileExistsAfter (tr : List Eff) (path : String) : Bool :=
  tr.foldl (fileStep path) false

/-- Whether an effect creates or deletes the screenshot file. -/
def touchesFile : Eff → Bool
  | .saveScreenshot _ => true
  | .removeFile _ => true
  | _ => false

/-- Whether an effect is one of the side-effecting external calls the
prober / registration lookup / screenshot capturer make (or the invocation
of those components themselves). -/
def isSideEffectingCall : Eff → Bool
  | .infoCall _ => true
  | .probeGet _ => true
  | .dnsResolve _ => true
  | .whoisQuery _ => true
  | .captureCall _ => true
  | .driverLaunch => true
  | .navigate _ => true
  | .saveScreenshot _ => true
  | .imageResizeSave _ _ _ _ => true
  | _ => false

/-- The width of the screenshot file after the effects `tr` have run, when
its captured width was `orig`: a resize-overwrite replaces the width. -/
def resultWidth (tr : List Eff) (orig : Nat) : Nat :=
  tr.foldl
    (fun acc e =>
      match e with
      | .imageResizeSave _ w _ _ => w
      | _ => acc)
    orig

/-- A fully successful environment, for concrete evaluations: the probe
returns status 200 in 123ms, DNS resolves, WHOIS answers, the browser and
image pipeline succeed (captured image 1920×1080), transport calls succeed. -/
def env0 : Env where
  probe := fun _ => .ok (200, 123)
  dns := fun _ => .ok "93.184.216.34"
  whoisQ := fun _ => .ok (some ⟨.str "ICANN", .scalar (.dateV 1), .scalar (.dateV 2)⟩)
  launch := .ok ()
  navigate := fun _ => .ok ()
  saveShot := .ok ()
  imgOpen := .ok (1920, 1080)
  resizeSave := .ok ()
  deleteMsg := .ok ()
  sendPhoto := .ok ()

/-- Like `env0` but `driver.get(url)` raises. -/
def env_navfail : Env :=
  { env0 with navigate := fun _ => .error "WebDriverException: timeout" }

/-- Like `env0` but `reply_photo` raises. -/
def env_sendfail : Env :=
  { env0 with sendPhoto := .error "BadRequest: chat not found" }

/-- Like `env0` but `whois.whois` raises. -/
def env_whoisfail : Env :=
  { env0 with whoisQ := fun _ => .error "WhoisCommandFailed" }

/-- Like `env0` but `requests.get` raises. -/
def env_probefail : Env :=
  { env0 with probe := fun _ => .error "ConnectTimeout" }

/-- A text message from a sender not in the allow-list. -/
def unauth_msg_update : Update := ⟨555, some ⟨"example.com"⟩, none⟩

/-- A button press from a sender not in the allow-list; per the transport,
a callback-query update carries no `message`. -/
def unauth_press_update : Update := ⟨555, none, some ⟨"more_https://example.com"⟩⟩

/-- A text message from an allow-listed sender. -/
def auth_msg_update : Update := ⟨123456789, some ⟨"example.com"⟩, none⟩

/-- A More-Info button press from an allow-listed sender. -/
def auth_press_update : Update := ⟨123456789, none, some ⟨"more_https://example.com"⟩⟩

/-!  Theorems.  General-purpose lemmas about the embedded functions first,
then one theorem per specification claim (with witnesses/counterexamples). -/

theorem check_auth_allowed (u : Update) (h : u.userId ∈ ALLOWED_USERS) :
    check_auth u = ⟨.ok true, []⟩ := by
  unfold check_auth
  rw [if_pos h]

theorem pyStartsWith_append (p u : String) : pyStartsWith (p ++ u) p = true := by
  simp [pyStartsWith, String.data_append, List.isPrefixOf_iff_prefix]

theorem pyDrop_five (p u : String) (h : p.data.length = 5) : pyDrop (p ++ u) 5 = u := by
  rw [pyDrop, String.data_append, ← h, List.drop_left]

theorem pyStartsWith_back_not_more (u : String) :
    pyStartsWith ("back_" ++ u) "more_" = false := by
  have h : ("back_" ++ u).data = 'b' :: 'a' :: 'c' :: 'k' :: '_' :: u.data := by
    rw [String.data_append]
    rfl
  rw [pyStartsWith, h]
  rfl

theorem decode_more (u : String) : decode_payload ("more_" ++ u) = some (.more, u) := by
  rw [decode_payload, if_pos]
  · rw [pyDrop_five "more_" u rfl]
  · exact pyStartsWith_append "more_" u

theorem decode_back (u : String) : decode_payload ("back_" ++ u) = some (.back, u) := by
  rw [decode_payload, if_neg, if_pos]
  · rw [pyDrop_five "back_" u rfl]
  · exact pyStartsWith_append "back_" u
  · simp [pyStartsWith_back_not_more u]

theorem get_website_info_body_shape (env : Env) (url : String) :
    ∃ r tr, get_website_info_body env url = ⟨r, .probeGet url :: tr⟩ := by
  unfold get_website_info_body
  dsimp only
  repeat' split
  all_goals exact ⟨_, _, rfl⟩

theorem get_website_info_shape (env : Env) (url : String) :
    ∃ d tr, get_website_info env url = ⟨.ok d, .infoCall url :: .probeGet url :: tr⟩ := by
  obtain ⟨r, tr, h⟩ := get_website_info_body_shape env url
  unfold get_website_info
  rw [h]
  cases r with
  | error e => exact ⟨_, _, rfl⟩
  | ok d => exact ⟨_, _, rfl⟩

theorem take_screenshot_body_shape (env : Env) (url : String) :
    ∃ r tr, take_screenshot_body env url = ⟨r, .driverLaunch :: tr⟩ := by
  unfold take_screenshot_body
  dsimp only
  repeat' split
  all_goals exact ⟨_, _, rfl⟩

theorem take_screenshot_shape (env : Env) (url : String) :
    ∃ o tr, take_screenshot env url = ⟨.ok o, .captureCall url :: .driverLaunch :: tr⟩ := by
  obtain ⟨r, tr, h⟩ := take_screenshot_body_shape env url
  unfold take_screenshot
  rw [h]
  cases r with
  | error e => exact ⟨_, _, rfl⟩
  | ok p => exact ⟨_, _, rfl⟩

theorem get_website_info_body_no_file_effects (env : Env) (url : String) :
    ∀ x ∈ (get_website_info_body env url).trace, touchesFile x = false := by
  unfold get_website_info_body
  dsimp only
  repeat' split
  all_goals simp [touchesFile]

theorem get_website_info_no_file_effects (env : Env) (url : String) :
    ∀ x ∈ (get_website_info env url).trace, touchesFile x = false := by
  have hb := get_website_info_body_no_file_effects env url
  unfold get_website_info
  rcases h : get_website_info_body env url with ⟨r, tr⟩
  rw [h] at hb
  cases r with
  | error e =>
    intro x hx
    rcases List.mem_cons.mp hx with h1 | h2
    · subst h1; rfl
    · exact hb x h2
  | ok d =>
    intro x hx
    rcases List.mem_cons.mp hx with h1 | h2
    · subst h1; rfl
    · exact hb x h2

theorem foldl_fileStep_untouched (p : String) (tr : List Eff) (b : Bool)
    (h : ∀ x ∈ tr, touchesFile x = false) :
    tr.foldl (fileStep p) b = b := by
  induction tr generalizing b with
  | nil => rfl
  | cons x xs ih =>
    have hx : touchesFile x = false := h x (List.mem_cons_self x xs)
    have hxs : ∀ y ∈ xs, touchesFile y = false := fun y hy => h y (List.mem_cons_of_mem x hy)
    rw [List.foldl_cons]
    have hstep : fileStep p b x = b := by
      cases x <;> simp [touchesFile] at hx ⊢ <;> simp [fileStep]
    rw [hstep]
    exact ih b hxs

/-- Claim C4: for every URL whose DNS resolution succeeds, a WHOIS failure
never propagates out of `get_website_info`; the registrar, creation-date and
expiration-date fields of the returned dict all equal the "N/A" placeholder
while the ip field carries the resolved address. -/
theorem claim_C4_whois_failure_degrades (env : Env) (url : String) (st rt : Int)
    (ip e : String)
    (hp : env.probe url = .ok (st, rt))
    (hd : env.dns (extract_domain url) = .ok ip)
    (hw : env.whoisQ (extract_domain url) = .error e) :
    (get_website_info env url).result =
      .ok [("status", .int st), ("response_time", .int rt), ("ip", .str ip),
           ("domain", .str (extract_domain url)),
           ("registrar", .str "N/A"), ("creation_date", .str "N/A"),
           ("expiration_date", .str "N/A")] := by
  unfold get_website_info get_website_info_body
  simp only [hp, hd, hw]
  rfl

theorem claim_C4_witness :
    (get_website_info env_whoisfail "https://example.com").result =
      .ok [("status", .int 200), ("response_time", .int 123),
           ("ip", .str "93.184.216.34"),
           ("domain", .str (extract_domain "https://example.com")),
           ("registrar", .str "N/A"), ("creation_date", .str "N/A"),
           ("expiration_date", .str "N/A")] :=
  claim_C4_whois_failure_degrades env_whoisfail "https://example.com" 200 123
    "93.184.216.34" "WhoisCommandFailed" rfl rfl rfl

/-- Claim C5: for every URL and every combination of outcomes of the browser
and image steps, `take_screenshot` returns normally — it never propagates an
exception to its caller — and moreover it returns the no-screenshot result
`none` whenever any step of its body (launch, navigation, capture, image
open, resize) raised, and the screenshot path when the body succeeded. -/
theorem claim_C5_capturer_never_raises (env : Env) (url : String) :
    (∃ o, (take_screenshot env url).result = .ok o) ∧
    (∀ e tr, take_screenshot_body env url = ⟨.error e, tr⟩ →
      (take_screenshot env url).result = .ok none) ∧
    (∀ p tr, take_screenshot_body env url = ⟨.ok p, tr⟩ →
      (take_screenshot env url).result = .ok (some p)) := by
  refine ⟨?_, ?_, ?_⟩
  · obtain ⟨o, tr, h⟩ := take_screenshot_shape env url
    exact ⟨o, by rw [h]⟩
  · intro e tr h
    unfold take_screenshot
    rw [h]
  · intro p tr h
    unfold take_screenshot
    rw [h]

/-- Claim C6: encoding a Summary-view More-Info button payload for a URL and
decoding it with the handler's decoder yields tag `more` and the URL
unchanged; likewise the Detail-view Back button payload yields `back` and
the URL unchanged. -/
theorem claim_C6_payload_roundtrip (u : String) :
    decode_payload (button_payload (more_button u)) = some (Tag.more, u) ∧
    decode_payload (button_payload (back_button u)) = some (Tag.back, u) := by
  constructor
  · show decode_payload ("more_" ++ u) = some (Tag.more, u)
    exact decode_more u
  · show decode_payload ("back_" ++ u) = some (Tag.back, u)
    exact decode_back u

/-- Claim C10: if the HTTP probe raises, `get_website_info` returns a dict
containing only an error field, with DNS and WHOIS never attempted (its
trace holds no resolver or WHOIS call), and every Summary-view and
Detail-view field of that dict renders as "N/A". -/
theorem claim_C10_probe_failure_fatal (env : Env) (url e : String)
    (hp : env.probe url = .error e) :
    get_website_info env url = ⟨.ok [("error", .str e)], [.infoCall url, .probeGet url]⟩ ∧
    pyStr (dictGet [("error", Value.str e)] "response_time" (.str "N/A")) = "N/A" ∧
    pyStr (dictGet [("error", Value.str e)] "status" (.str "N/A")) = "N/A" ∧
    pyStr (dictGet [("error", Value.str e)] "ip" (.str "N/A")) = "N/A" ∧
    pyStr (dictGet [("error", Value.str e)] "registrar" (.str "N/A")) = "N/A" ∧
    pyStr (dictGet [("error", Value.str e)] "creation_date" (.str "N/A")) = "N/A" ∧
    pyStr (dictGet [("error", Value.str e)] "expiration_date" (.str "N/A")) = "N/A" ∧
    summary_text url [("error", .str e)] =
      "🌐 Website: " ++ (url ++ "\n⏱ Response Time: N/Ams\n📊 Status: N/A\n") ∧
    detail_text url [("error", .str e)] =
      "🌐 Detailed Information for " ++
        (url ++ "\n\n🔍 IP Address: N/A\n🏢 Registrar: N/A\n📅 Created: N/A\n⌛ Expires: N/A\n") := by
  refine ⟨?_, rfl, rfl, rfl, rfl, rfl, rfl, ?_, ?_⟩
  · unfold get_website_info get_website_info_body
    simp only [hp]
  · unfold summary_text
    simp only [String.append_assoc]
    congr 1
  · unfold detail_text
    simp only [String.append_assoc]
    congr 1

theorem handle_url_try_shape (env : Env) (url : String) :
    ∃ r rest, handle_url_try env url =
      ⟨r, (get_website_info env url).trace ++
            ((take_screenshot env url).trace ++ rest)⟩ := by
  obtain ⟨d, tri, hi⟩ := get_website_info_shape env url
  obtain ⟨o, trs, hs⟩ := take_screenshot_shape env url
  unfold handle_url_try
  rw [hi, hs]
  dsimp only
  rcases hdel : env.deleteMsg with e | ⟨⟩
  · refine ⟨.error e, [Eff.deleteMessage], ?_⟩
    simp [hdel]
  rcases o with _ | path
  · refine ⟨.ok (), [Eff.deleteMessage,
      Eff.replyTextMarkup (summary_text url d ++ "\n❌ Could not generate screenshot")
        (more_button url)], ?_⟩
    simp [hdel]
  rcases hsend : env.sendPhoto with e | ⟨⟩
  · refine ⟨.error e, [Eff.deleteMessage,
      Eff.replyPhoto path (summary_text url d) (more_button url)], ?_⟩
    simp [hdel, hsend]
  · refine ⟨.ok (), [Eff.deleteMessage,
      Eff.replyPhoto path (summary_text url d) (more_button url),
      Eff.removeFile path], ?_⟩
    simp [hdel, hsend]

theorem handle_url_trace_parts (env : Env) (u : Update) (m : Message)
    (hauth : u.userId ∈ ALLOWED_USERS) (hm : u.message = some m) :
    ∃ rest, (handle_url env u).trace =
      .replyText processing_text ::
        ((get_website_info env (normalize_url m.text)).trace ++
          ((take_screenshot env (normalize_url m.text)).trace ++ rest)) := by
  obtain ⟨r, rest, htry⟩ := handle_url_try_shape env (normalize_url m.text)
  unfold handle_url
  rw [check_auth_allowed u hauth]
  dsimp only
  rw [hm]
  dsimp only
  rw [htry]
  cases r with
  | error e =>
    exact ⟨rest ++ [.editText ("Error checking website: " ++ e)], by simp⟩
  | ok x =>
    cases x
    exact ⟨rest, by simp⟩

/-- Claim C7: an inbound text for an allow-listed sender is normalized by
prefixing "https://" exactly when the text starts with neither "http://"
nor "https://" (text already carrying a scheme passes through unchanged),
and the normalized URL is the one handed to the prober/lookup
(`get_website_info`) and to the capturer (`take_screenshot`). -/
theorem claim_C7_url_normalization (env : Env) (u : Update) (m : Message)
    (hauth : u.userId ∈ ALLOWED_USERS) (hm : u.message = some m) :
    (pyStartsWith m.text "http://" = false → pyStartsWith m.text "https://" = false →
      normalize_url m.text = "https://" ++ m.text) ∧
    (pyStartsWith m.text "http://" = true ∨ pyStartsWith m.text "https://" = true →
      normalize_url m.text = m.text) ∧
    Eff.infoCall (normalize_url m.text) ∈ (handle_url env u).trace ∧
    Eff.probeGet (normalize_url m.text) ∈ (handle_url env u).trace ∧
    Eff.captureCall (normalize_url m.text) ∈ (handle_url env u).trace := by
  obtain ⟨rest, htr⟩ := handle_url_trace_parts env u m hauth hm
  obtain ⟨d, tri, hi⟩ := get_website_info_shape env (normalize_url m.text)
  obtain ⟨o, trs, hs⟩ := take_screenshot_shape env (normalize_url m.text)
  refine ⟨?_, ?_, ?_, ?_, ?_⟩
  · intro h1 h2
    unfold normalize_url
    rw [h1, h2]
    rfl
  · intro h
    unfold normalize_url
    rcases h with h | h <;> rw [h] <;> simp
  · rw [htr, hi]
    simp
  · rw [htr, hi]
    simp
  · rw [htr, hs]
    simp

theorem claim_C7_witness :
    (pyStartsWith "example.com" "http://" = false →
      pyStartsWith "example.com" "https://" = false →
      normalize_url "example.com" = "https://" ++ "example.com") ∧
    (pyStartsWith "example.com" "http://" = true ∨
      pyStartsWith "example.com" "https://" = true →
      normalize_url "example.com" = "example.com") ∧
    Eff.infoCall (normalize_url "example.com") ∈ (handle_url env0 auth_msg_update).trace ∧
    Eff.probeGet (normalize_url "example.com") ∈ (handle_url env0 auth_msg_update).trace ∧
    Eff.captureCall (normalize_url "example.com") ∈ (handle_url env0 auth_msg_update).trace :=
  claim_C7_url_normalization env0 auth_msg_update ⟨"example.com"⟩ (by decide) rfl

/-- Claim C1 concerns the three entry points on an unauthorized sender.  For
the start and text handlers the rejection is the only effect; but for the
button-callback handler, `check_auth` evaluates `update.message.reply_text`
with `update.message = None` (a callback update carries no message), so it
raises `AttributeError` and the fixed rejection message is never sent —
though no probe/lookup/capture happens either.  This theorem evaluates the
three handlers at such inputs. -/
theorem claim_C1_unauthorized_entry_points :
    start unauth_msg_update = ⟨.ok (), [.replyText rejection_text]⟩ ∧
    handle_url env0 unauth_msg_update = ⟨.ok (), [.replyText rejection_text]⟩ ∧
    button_callback env0 unauth_press_update =
      ⟨.error "AttributeError: NoneType object has no attribute reply_text", []⟩ ∧
    (handle_url env0 unauth_msg_update).trace.all (fun e => !isSideEffectingCall e) = true ∧
    (button_callback env0 unauth_press_update).trace.all
      (fun e => !isSideEffectingCall e) = true :=
  ⟨rfl, rfl, rfl, rfl, rfl⟩

/-- Counterexample to claim C2 as stated: on the execution path where
browser launch succeeds but navigation raises, `take_screenshot` returns the
no-screenshot result without ever quitting the driver — the teardown is not
performed on every path. -/
theorem claim_C2_counterexample :
    (take_screenshot env_navfail "https://example.com").trace =
      [.captureCall "https://example.com", .driverLaunch,
       .navigate "https://example.com"] ∧
    Eff.driverQuit ∉ (take_screenshot env_navfail "https://example.com").trace ∧
    (take_screenshot env_navfail "https://example.com").result = .ok none :=
  ⟨rfl, by decide, rfl⟩

/-- Claim C2, amended: the driver is quit exactly on the executions where
launch, navigation and capture all succeed (the quit precedes the image
post-processing, so a resize failure still quits); on a path where launch,
navigation or capture raises, the driver is never quit. -/
theorem claim_C2_amended_quit_iff (env : Env) (url : String) :
    Eff.driverQuit ∈ (take_screenshot env url).trace ↔
      env.launch = .ok () ∧ env.navigate url = .ok () ∧ env.saveShot = .ok () := by
  unfold take_screenshot take_screenshot_body
  rcases hl : env.launch with e | ⟨⟩
  · simp [hl]
  rcases hn : env.navigate url with e | ⟨⟩
  · simp [hn]
  rcases hsv : env.saveShot with e | ⟨⟩
  · simp [hsv]
  rcases hio : env.imgOpen with e | ⟨w, h⟩
  · simp [hl, hn, hsv, hio]
  dsimp only
  by_cases hw : w > 1280
  · rw [if_pos hw]
    rcases hr : env.resizeSave with e | ⟨⟩ <;> simp [hl, hn, hsv, hio, hr]
  · rw [if_neg hw]
    simp [hl, hn, hsv, hio]

theorem take_screenshot_success (env : Env) (url : String) (w h : Nat)
    (h1 : env.launch = .ok ()) (h2 : env.navigate url = .ok ())
    (h3 : env.saveShot = .ok ()) (h4 : env.imgOpen = .ok (w, h))
    (h5 : env.resizeSave = .ok ()) :
    take_screenshot env url =
      ⟨.ok (some screenshot_path),
       .captureCall url :: .driverLaunch :: .navigate url :: .sleepSec 2 ::
       .saveScreenshot screenshot_path :: .driverQuit :: .imageOpen screenshot_path ::
       (if 1280 < w then
          [.imageResizeSave screenshot_path 1280 (resize_height w h) .lanczos]
        else [])⟩ := by
  unfold take_screenshot take_screenshot_body
  simp only [h1, h2, h3, h4, h5]
  by_cases hw : 1280 < w
  · rw [if_pos hw, if_pos hw]
    rfl
  · rw [if_neg hw, if_neg hw]
    rfl

/-- Counterexample to claim C3 as stated: when the photo send raises, the
handler jumps to the error branch without `os.remove`, so the screenshot
file still exists once the flow completes — the deletion does not happen on
every exit path. -/
theorem claim_C3_counterexample :
    (take_screenshot env_sendfail "https://example.com").result =
      .ok (some screenshot_path) ∧
    Eff.removeFile screenshot_path ∉ (handle_url env_sendfail auth_msg_update).trace ∧
    fileExistsAfter (handle_url env_sendfail auth_msg_update).trace screenshot_path
      = true :=
  ⟨rfl, by decide, rfl⟩

/-- Claim C3, amended: the screenshot file exists right after the capturer
returns a path, and on the path where the placeholder deletion and the photo
send both succeed the handler removes it, so it no longer exists when the
flow completes; but if the send (or the placeholder deletion) raises, the
error branch performs no deletion and the file persists. -/
theorem claim_C3_amended (env : Env) (u : Update) (m : Message) (w h : Nat)
    (hauth : u.userId ∈ ALLOWED_USERS) (hm : u.message = some m)
    (h1 : env.launch = .ok ())
    (h2 : env.navigate (normalize_url m.text) = .ok ())
    (h3 : env.saveShot = .ok ()) (h4 : env.imgOpen = .ok (w, h))
    (h5 : env.resizeSave = .ok ())
    (hdel : env.deleteMsg = .ok ()) (hsend : env.sendPhoto = .ok ()) :
    (take_screenshot env (normalize_url m.text)).result = .ok (some screenshot_path) ∧
    fileExistsAfter (take_screenshot env (normalize_url m.text)).trace
      screenshot_path = true ∧
    Eff.removeFile screenshot_path ∈ (handle_url env u).trace ∧
    fileExistsAfter (handle_url env u).trace screenshot_path = false := by
  have hts := take_screenshot_success env (normalize_url m.text) w h h1 h2 h3 h4 h5
  obtain ⟨d, tri, hi⟩ := get_website_info_shape env (normalize_url m.text)
  have hno := get_website_info_no_file_effects env (normalize_url m.text)
  rw [hi] at hno
  have htri : ∀ x ∈ tri, touchesFile x = false := fun x hx =>
    hno x (List.mem_cons_of_mem _ (List.mem_cons_of_mem _ hx))
  have hhu : handle_url env u = ⟨.ok (),
      (([] : List Eff) ++ [.replyText processing_text]) ++
        (((Eff.infoCall (normalize_url m.text) ::
            Eff.probeGet (normalize_url m.text) :: tri) ++
          (Eff.captureCall (normalize_url m.text) :: Eff.driverLaunch ::
           Eff.navigate (normalize_url m.text) :: Eff.sleepSec 2 ::
           Eff.saveScreenshot screenshot_path :: Eff.driverQuit ::
           Eff.imageOpen screenshot_path ::
           (if 1280 < w then
              [Eff.imageResizeSave screenshot_path 1280 (resize_height w h) .lanczos]
            else []))) ++
          [Eff.deleteMessage,
           Eff.replyPhoto screenshot_path (summary_text (normalize_url m.text) d)
             (more_button (normalize_url m.text)),
           Eff.removeFile screenshot_path])⟩ := by
    unfold handle_url
    rw [check_auth_allowed u hauth]
    dsimp only
    rw [hm]
    dsimp only
    unfold handle_url_try
    rw [hi, hts]
    dsimp only
    rw [hdel]
    dsimp only
    rw [hsend]
  refine ⟨?_, ?_, ?_, ?_⟩
  · rw [hts]
  · rw [hts]
    by_cases hw : 1280 < w
    · rw [if_pos hw]
      rfl
    · rw [if_neg hw]
      rfl
  · rw [hhu]
    simp
  · rw [hhu]
    have hstep : ∀ b, List.foldl (fileStep screenshot_path) b tri = b := fun b =>
      foldl_fileStep_untouched screenshot_path tri b htri
    by_cases hw : 1280 < w
    · rw [if_pos hw]
      simp [fileExistsAfter, List.foldl_append, hstep, fileStep]
    · rw [if_neg hw]
      simp [fileExistsAfter, List.foldl_append, hstep, fileStep]

theorem claim_C3_witness :
    (take_screenshot env0 (normalize_url "example.com")).result =
      .ok (some screenshot_path) ∧
    fileExistsAfter (take_screenshot env0 (normalize_url "example.com")).trace
      screenshot_path = true ∧
    Eff.removeFile screenshot_path ∈ (handle_url env0 auth_msg_update).trace ∧
    fileExistsAfter (handle_url env0 auth_msg_update).trace screenshot_path = false :=
  claim_C3_amended env0 auth_msg_update ⟨"example.com"⟩ 1920 1080 (by decide) rfl
    rfl rfl rfl rfl rfl rfl rfl

/-- Claim C8: under a successful capture, an image wider than 1280px is
rewritten at width exactly 1280 and height scaled by the same ratio (Python's
float ratio modelled as exact rational arithmetic truncated toward zero)
with the LANCZOS filter; an image of width at most 1280 gets no resize; in
both cases the resulting file's width never exceeds 1280. -/
theorem claim_C8_resize_bound (env : Env) (url : String) (w h : Nat)
    (h1 : env.launch = .ok ()) (h2 : env.navigate url = .ok ())
    (h3 : env.saveShot = .ok ()) (h4 : env.imgOpen = .ok (w, h))
    (h5 : env.resizeSave = .ok ()) :
    (1280 < w →
      take_screenshot env url = ⟨.ok (some screenshot_path),
        [.captureCall url, .driverLaunch, .navigate url, .sleepSec 2,
         .saveScreenshot screenshot_path, .driverQuit, .imageOpen screenshot_path,
         .imageResizeSave screenshot_path 1280 (h * 1280 / w) .lanczos]⟩) ∧
    (w ≤ 1280 →
      take_screenshot env url = ⟨.ok (some screenshot_path),
        [.captureCall url, .driverLaunch, .navigate url, .sleepSec 2,
         .saveScreenshot screenshot_path, .driverQuit,
         .imageOpen screenshot_path]⟩) ∧
    resultWidth (take_screenshot env url).trace w ≤ 1280 := by
  have hts := take_screenshot_success env url w h h1 h2 h3 h4 h5
  refine ⟨?_, ?_, ?_⟩
  · intro hw
    rw [hts, if_pos hw]
    rfl
  · intro hw
    rw [hts, if_neg (by omega)]
  · rw [hts]
    by_cases hw : 1280 < w
    · rw [if_pos hw]
      exact Nat.le.refl
    · rw [if_neg hw]
      exact Nat.le_of_not_lt hw

theorem claim_C8_witness :
    (1280 < 1920 →
      take_screenshot env0 "https://example.com" = ⟨.ok (some screenshot_path),
        [.captureCall "https://example.com", .driverLaunch,
         .navigate "https://example.com", .sleepSec 2,
         .saveScreenshot screenshot_path, .driverQuit, .imageOpen screenshot_path,
         .imageResizeSave screenshot_path 1280 720 .lanczos]⟩) ∧
    (1920 ≤ 1280 →
      take_screenshot env0 "https://example.com" = ⟨.ok (some screenshot_path),
        [.captureCall "https://example.com", .driverLaunch,
         .navigate "https://example.com", .sleepSec 2,
         .saveScreenshot screenshot_path, .driverQuit,
         .imageOpen screenshot_path]⟩) ∧
    resultWidth (take_screenshot env0 "https://example.com").trace 1920 ≤ 1280 :=
  claim_C8_resize_bound env0 "https://example.com" 1920 1080 rfl rfl rfl rfl rfl

/-- Claim C9: on a More-Info button press from an allow-listed sender, the
message is edited to the detail view of the embedded URL — rendering its ip,
registrar, creation-date and expiration-date fields — with a Back button,
and any of those four fields that is absent from the registration dict
renders as "N/A". -/
theorem claim_C9_detail_view (env : Env) (u : Update) (q : CallbackQuery)
    (url : String) (info : InfoDict)
    (hauth : u.userId ∈ ALLOWED_USERS)
    (hq : u.callback_query = some q)
    (hdata : q.data = "more_" ++ url)
    (hinfo : (get_website_info env url).result = .ok info) :
    Eff.editCaption (detail_text url info) (back_button url) ∈
      (button_callback env u).trace ∧
    (info.find? (fun p => p.1 == "ip") = none →
      pyStr (dictGet info "ip" (.str "N/A")) = "N/A") ∧
    (info.find? (fun p => p.1 == "registrar") = none →
      pyStr (dictGet info "registrar" (.str "N/A")) = "N/A") ∧
    (info.find? (fun p => p.1 == "creation_date") = none →
      pyStr (dictGet info "creation_date" (.str "N/A")) = "N/A") ∧
    (info.find? (fun p => p.1 == "expiration_date") = none →
      pyStr (dictGet info "expiration_date" (.str "N/A")) = "N/A") := by
  refine ⟨?_, ?_, ?_, ?_, ?_⟩
  · unfold button_callback
    rw [check_auth_allowed u hauth]
    dsimp only
    rw [hq]
    dsimp only
    rw [hdata, decode_more url]
    dsimp only
    rcases hgi : get_website_info env url with ⟨r, tr⟩
    rw [hgi] at hinfo
    dsimp only at hinfo
    rw [hinfo]
    simp
  all_goals intro hnone
  all_goals unfold dictGet
  all_goals rw [hnone]
  all_goals rfl

theorem claim_C9_witness :
    Eff.editCaption
        (detail_text "https://example.com"
          [("status", .int 200), ("response_time", .int 123),
           ("ip", .str "93.184.216.34"),
           ("domain", .str (extract_domain "https://example.com")),
           ("registrar", .str "ICANN"),
           ("creation_date", .dateV 1), ("expiration_date", .dateV 2)])
        (back_button "https://example.com") ∈
      (button_callback env0 auth_press_update).trace ∧
    ([("status", Value.int 200), ("response_time", Value.int 123),
      ("ip", Value.str "93.184.216.34"),
      ("domain", Value.str (extract_domain "https://example.com")),
      ("registrar", Value.str "ICANN"),
      ("creation_date", Value.dateV 1),
      ("expiration_date", Value.dateV 2)].find? (fun p => p.1 == "ip") = none →
      pyStr (dictGet
        [("status", .int 200), ("response_time", .int 123),
         ("ip", .str "93.184.216.34"),
         ("domain", .str (extract_domain "https://example.com")),
         ("registrar", .str "ICANN"),
         ("creation_date", .dateV 1), ("expiration_date", .dateV 2)]
        "ip" (.str "N/A")) = "N/A") ∧
    ([("status", Value.int 200), ("response_time", Value.int 123),
      ("ip", Value.str "93.184.216.34"),
      ("domain", Value.str (extract_domain "https://example.com")),
      ("registrar", Value.str "ICANN"),
      ("creation_date", Value.dateV 1),
      ("expiration_date", Value.dateV 2)].find? (fun p => p.1 == "registrar") = none →
      pyStr (dictGet
        [("status", .int 200), ("response_time", .int 123),
         ("ip", .str "93.184.216.34"),
         ("domain", .str (extract_domain "https://example.com")),
         ("registrar", .str "ICANN"),
         ("creation_date", .dateV 1), ("expiration_date", .dateV 2)]
        "registrar" (.str "N/A")) = "N/A") ∧
    ([("status", Value.int 200), ("response_time", Value.int 123),
      ("ip", Value.str "93.184.216.34"),
      ("domain", Value.str (extract_domain "https://example.com")),
      ("registrar", Value.str "ICANN"),
      ("creation_date", Value.dateV 1),
      ("expiration_date", Value.dateV 2)].find? (fun p => p.1 == "creation_date") = none →
      pyStr (dictGet
        [("status", .int 200), ("response_time", .int 123),
         ("ip", .str "93.184.216.34"),
         ("domain", .str (extract_domain "https://example.com")),
         ("registrar", .str "ICANN"),
         ("creation_date", .dateV 1), ("expiration_date", .dateV 2)]
        "creation_date" (.str "N/A")) = "N/A") ∧
    ([("status", Value.int 200), ("response_time", Value.int 123),
      ("ip", Value.str "93.184.216.34"),
      ("domain", Value.str (extract_domain "https://example.com")),
      ("registrar", Value.str "ICANN"),
      ("creation_date", Value.dateV 1),
      ("expiration_date", Value.dateV 2)].find? (fun p => p.1 == "expiration_date") = none →
      pyStr (dictGet
        [("status", .int 200), ("response_time", .int 123),
         ("ip", .str "93.184.216.34"),
         ("domain", .str (extract_domain "https://example.com")),
         ("registrar", .str "ICANN"),
         ("creation_date", .dateV 1), ("expiration_date", .dateV 2)]
        "expiration_date" (.str "N/A")) = "N/A") :=
  claim_C9_detail_view env0 auth_press_update ⟨"more_https://example.com"⟩
    "https://example.com" _ (by decide) rfl rfl rfl

theorem claim_C10_witness :
    get_website_info env_probefail "https://example.com" =
      ⟨.ok [("error", .str "ConnectTimeout")],
       [.infoCall "https://example.com", .probeGet "https://example.com"]⟩ ∧
    pyStr (dictGet [("error", Value.str "ConnectTimeout")] "response_time" (.str "N/A")) = "N/A" ∧
    pyStr (dictGet [("error", Value.str "ConnectTimeout")] "status" (.str "N/A")) = "N/A" ∧
    pyStr (dictGet [("error", Value.str "ConnectTimeout")] "ip" (.str "N/A")) = "N/A" ∧
    pyStr (dictGet [("error", Value.str "ConnectTimeout")] "registrar" (.str "N/A")) = "N/A" ∧
    pyStr (dictGet [("error", Value.str "ConnectTimeout")] "creation_date" (.str "N/A")) = "N/A" ∧
    pyStr (dictGet [("error", Value.str "ConnectTimeout")] "expiration_date" (.str "N/A")) = "N/A" ∧
    summary_text "https://example.com" [("error", .str "ConnectTimeout")] =
      "🌐 Website: " ++
        ("https://example.com" ++ "\n⏱ Response Time: N/Ams\n📊 Status: N/A\n") ∧
    detail_text "https://example.com" [("error", .str "ConnectTimeout")] =
      "🌐 Detailed Information for " ++
        ("https://example.com" ++
          "\n\n🔍 IP Address: N/A\n🏢 Registrar: N/A\n📅 Created: N/A\n⌛ Expires: N/A\n") :=
  claim_C10_probe_failure_fatal env_probefail "https://example.com" "ConnectTimeout" rfl

end Bot
